import Mathlib

/-!
Shallow embedding of the cricket-game simulation core
(src/src/engine/matchSimulator.js, src/src/engine/probabilityEngine.js,
src/src/engine/testProbabilityEngine.js, and the BowlingManager variant in
src/unnamed/part_013), together with theorems settling the frozen claims.

Modelling conventions:
* JS numbers that are always integral in the source are `Nat` (counters) or
  `Int` (quantities that JS may drive negative, such as fitness arithmetic
  or deficits); genuinely fractional quantities (pitch wear, probability
  tables) are `Rat`.
* JS `Map` objects keyed by player id are association lists in insertion
  order; `Map.get` on a missing key (JS `undefined`) is `Option`.
* `null`/`undefined` references are `Option`; a JS `throw` is
  `Except.error`.
* Commentary strings produced by commentaryGenerator.js are pure string
  formatting with no feedback into match state and are omitted.
* The probability engines sample a `BallOutcome` from `Math.random()`;
  every theorem quantifies over the outcome (or a finite stream of
  outcomes), which covers all possible samples.
-/

namespace Cricket

/-- Mutable per-player state used by the simulator
(src/src/engine/playerStats.js: `confidence` and `fitness` both start
at 100 and are the only player fields the match simulator writes). -/
structure Player where
  id : Nat
  name : String
  confidence : Int
  fitness : Int
deriving DecidableEq, Repr

/-- A team as consumed by the simulator: a name and a player list. -/
structure Team where
  name : String
  players : List Player
deriving DecidableEq, Repr

/-- Value emitted per delivery by the probability engines
(`generateBallResult` in probabilityEngine.js / testProbabilityEngine.js). -/
structure BallOutcome where
  outcome : String
  runs : Nat
  isWicket : Bool
  isLegalDelivery : Bool
deriving DecidableEq, Repr

/-- Per-innings batsman accumulator (`batsmanStats` map values). -/
structure BatsmanStat where
  runs : Nat
  balls : Nat
  fours : Nat
  sixes : Nat
  isOut : Bool
  howOut : Option String
deriving DecidableEq, Repr

/-- Per-innings bowler accumulator (`getBowlerStats` initial shape). -/
structure BowlerStat where
  overs : Nat
  balls : Nat
  runs : Nat
  wickets : Nat
  maidens : Nat
  wides : Nat
  noBalls : Nat
  currentOverRuns : Nat
  currentOverBalls : Nat
deriving DecidableEq, Repr

/-- Fall-of-wickets record pushed by `handleWicket`. -/
structure FallOfWicket where
  batsman : String
  runs : Nat
  wicket : Nat
  over : String
deriving DecidableEq, Repr

/-- Running partnership for the current pair (`currentPartnership`). -/
structure Partnership where
  runs : Nat
  balls : Nat
  batsman1 : Option Player
  batsman2 : Option Player
deriving DecidableEq, Repr

/-- The two condition counters the simulation loop mutates
(src/src/engine/matchConditions.js `pitchWear` / `dewFactor`); the
remaining condition fields only feed the probability engines, whose
sampled outcome is a theorem parameter here. -/
structure Conditions where
  pitchWear : Rat
  dewFactor : Rat
deriving DecidableEq, Repr

/-- `updateDewFactor(oversPlayed)` from matchConditions.js. -/
def updateDewFactor (c : Conditions) (oversPlayed : Nat) : Conditions :=
  if 10 < oversPlayed then
    { c with dewFactor := min 100 (c.dewFactor + ((oversPlayed : Rat) - 10) * 2) }
  else c

/-- `updatePitchWear(oversPlayed)` from matchConditions.js (the
`oversPlayed` argument is unused in the source as well). -/
def updatePitchWear (c : Conditions) (_oversPlayed : Nat) : Conditions :=
  { c with pitchWear := min 100 (c.pitchWear + 1 / 2) }

/-- JS `Map.has` on an id-keyed map. -/
def hasKey (m : List (Nat × α)) (k : Nat) : Bool :=
  m.any (fun kv => kv.1 == k)

/-- JS `Map.get` (missing key = `undefined` = `none`). -/
def getKey (m : List (Nat × α)) (k : Nat) : Option α :=
  (m.find? (fun kv => kv.1 == k)).map (fun kv => kv.2)

/-- JS `Map.set`: update in place if present (insertion order kept),
append otherwise. -/
def setKey (m : List (Nat × α)) (k : Nat) (v : α) : List (Nat × α) :=
  if hasKey m k then m.map (fun kv => if kv.1 == k then (k, v) else kv)
  else m ++ [(k, v)]

/-- `ballsToOvers` from the utility module: `"X.Y"` with X completed
overs and Y remainder balls. -/
def ballsToOvers (balls : Nat) : String :=
  toString (balls / 6) ++ "." ++ toString (balls % 6)

/-- Archived innings record for the limited-overs `this.innings` slots
(commentary omitted; constructor initialises `overs` to the number 0,
rendered here as the string "0"). -/
structure Innings1 where
  runs : Nat
  wickets : Nat
  overs : String
  extras : Nat
  fallOfWickets : List FallOfWicket
deriving DecidableEq, Repr

/-- `MatchState` (matchSimulator.js lines 36-64); `commentary` lists are
omitted (strings only), extras are split into their four counters. -/
structure MatchState where
  team1 : Team
  team2 : Team
  totalOvers : Nat
  currentInning : Nat
  battingTeam : Team
  bowlingTeam : Team
  score : Nat
  wickets : Nat
  balls : Nat
  striker : Option Player
  nonStriker : Option Player
  bowler : Option Player
  fallOfWickets : List FallOfWicket
  partnerships : List Partnership
  currentPartnership : Partnership
  batsmen : List Player
  extrasWides : Nat
  extrasNoBalls : Nat
  extrasByes : Nat
  extrasLegByes : Nat
  inningsFirst : Innings1
  inningsSecond : Innings1
  conditions : Conditions
  batsmanStats : List (Nat × BatsmanStat)
  bowlerStats : List (Nat × BowlerStat)
deriving DecidableEq, Repr

/-- Fresh batsman stat line (`{ runs: 0, balls: 0, fours: 0, sixes: 0,
isOut: false }`). -/
def freshBatStat : BatsmanStat :=
  { runs := 0, balls := 0, fours := 0, sixes := 0, isOut := false, howOut := none }

/-- Fresh bowler stat line initialised by `getBowlerStats`. -/
def freshBowlerStat : BowlerStat :=
  { overs := 0, balls := 0, runs := 0, wickets := 0, maidens := 0, wides := 0,
    noBalls := 0, currentOverRuns := 0, currentOverBalls := 0 }

/-- Empty innings slot of the limited-overs constructor. -/
def emptyInnings1 : Innings1 :=
  { runs := 0, wickets := 0, overs := toString 0, extras := 0, fallOfWickets := [] }

/-- The `MatchState` constructor (`overs` defaults to 20 and `conditions`
to a randomly generated instance at the call sites; both are explicit
parameters here). -/
def mkMatchState (team1 team2 : Team) (overs : Nat) (conditions : Conditions) : MatchState :=
  { team1 := team1
    team2 := team2
    totalOvers := overs
    currentInning := 1
    battingTeam := team1
    bowlingTeam := team2
    score := 0
    wickets := 0
    balls := 0
    striker := none
    nonStriker := none
    bowler := none
    fallOfWickets := []
    partnerships := []
    currentPartnership := { runs := 0, balls := 0, batsman1 := none, batsman2 := none }
    batsmen := []
    extrasWides := 0
    extrasNoBalls := 0
    extrasByes := 0
    extrasLegByes := 0
    inningsFirst := emptyInnings1
    inningsSecond := emptyInnings1
    conditions := conditions
    batsmanStats := []
    bowlerStats := [] }

/-- `MatchState.getCurrentOver()`. -/
def MatchState.getCurrentOver (s : MatchState) : String :=
  ballsToOvers s.balls

/-- `MatchState.isInningsComplete()` (matchSimulator.js lines 76-78):
`wickets >= 10 || balls >= totalOvers * 6`. -/
def MatchState.isInningsComplete (s : MatchState) : Bool :=
  decide (10 ≤ s.wickets) || decide (s.totalOvers * 6 ≤ s.balls)

/-- `MatchState.initializeBatsmen(players)`; with fewer than two players
the JS dereferences `undefined.id` and throws, unreachable with the
11-player line-ups the callers pass. -/
def initializeBatsmen (s : MatchState) (players : List Player) : MatchState :=
  match players with
  | a :: b :: _ =>
    { s with batsmen := players
             striker := some a
             nonStriker := some b
             currentPartnership :=
               { runs := 0, balls := 0, batsman1 := some a, batsman2 := some b }
             batsmanStats := setKey (setKey s.batsmanStats a.id freshBatStat) b.id freshBatStat }
  | _ => s

/-- `MatchState.getNextBatsman()`: first batsman with no stats entry, a
fresh stats entry is inserted for them; returns the batsman (if any)
and the updated stats map. -/
def getNextBatsman (s : MatchState) : Option Player × List (Nat × BatsmanStat) :=
  match s.batsmen.find? (fun b => !(hasKey s.batsmanStats b.id)) with
  | some b => (some b, setKey s.batsmanStats b.id freshBatStat)
  | none => (none, s.batsmanStats)

/-- Dismissal description formatting inside `handleWicket` (the outer
branch: with both a wicket type and a bowler the switch applies,
otherwise the text is "out"). -/
def dismissalText (wicketType : Option String) (bowler : Option Player)
    (fielder : Option String) : String :=
  match wicketType, bowler with
  | some wt, some b =>
    if wt = ("bowled") then ("b ") ++ b.name
    else if wt = ("caught") then
      match fielder with
      | some f => ("c ") ++ f ++ (" b ") ++ b.name
      | none => ("c & b ") ++ b.name
    else if wt = ("lbw") then ("lbw b ") ++ b.name
    else if wt = ("stumped") then
      match fielder with
      | some f => ("st ") ++ f ++ (" b ") ++ b.name
      | none => ("stumped")
    else if wt = ("runOut") then
      match fielder with
      | some f => ("run out (") ++ f ++ (")")
      | none => ("run out")
    else if wt = ("hitWicket") then ("hit wicket b ") ++ b.name
    else ("b ") ++ b.name
  | _, _ => ("out")

/-- `MatchState.rotateStrike()`. -/
def rotateStrike (s : MatchState) : MatchState :=
  { s with striker := s.nonStriker, nonStriker := s.striker }

/-- First stage of `handleWicket`: push the fall-of-wicket record. -/
def hwRecordFall (s : MatchState) (batsmanOut : Player) : MatchState :=
  let fw : FallOfWicket :=
    { batsman := batsmanOut.name, runs := s.score, wicket := s.wickets,
      over := s.getCurrentOver }
  { s with fallOfWickets := s.fallOfWickets ++ [fw] }

/-- Second stage of `handleWicket`: mark the batsman out with the
formatted dismissal text (no-op when the stats entry is missing, as in
the JS `if (stats)` guard). -/
def hwMarkOut (s : MatchState) (batsmanOut : Player) (wicketType : Option String)
    (bowler : Option Player) (fielder : Option String) : MatchState :=
  match getKey s.batsmanStats batsmanOut.id with
  | some st =>
    let st : BatsmanStat :=
      { st with isOut := true, howOut := some (dismissalText wicketType bowler fielder) }
    { s with batsmanStats := setKey s.batsmanStats batsmanOut.id st }
  | none => s

/-- Third stage of `handleWicket`: archive a partnership that scored. -/
def hwArchivePartnership (s : MatchState) : MatchState :=
  if 0 < s.currentPartnership.runs then
    { s with partnerships := s.partnerships ++ [s.currentPartnership] }
  else s

/-- Fourth stage of `handleWicket`: bring in the next unused batsman
(replacing whichever of striker or non-striker went out) and start a
fresh partnership; when nobody is left, only the stats-map insertion
attempt of `getNextBatsman` remains. -/
def hwNextBatsman (s : MatchState) (batsmanOut : Player) : MatchState :=
  let next := getNextBatsman s
  let s := { s with batsmanStats := next.2 }
  match next.1 with
  | some nb =>
    let s :=
      if s.striker = some batsmanOut then { s with striker := some nb }
      else { s with nonStriker := some nb }
    { s with currentPartnership :=
        { runs := 0, balls := 0, batsman1 := s.striker, batsman2 := s.nonStriker } }
  | none => s

/-- `MatchState.handleWicket(batsmanOut, runs, wicketType, bowler,
fielder)` (the `runs` argument is unused in the source as well): the
four stages above in source order. -/
def handleWicket (s : MatchState) (batsmanOut : Player) (_runsArg : Nat)
    (wicketType : Option String) (bowler : Option Player) (fielder : Option String) :
    MatchState :=
  hwNextBatsman
    (hwArchivePartnership (hwMarkOut (hwRecordFall s batsmanOut) batsmanOut wicketType bowler fielder))
    batsmanOut

/-- `MatchState.updateBatsmanStats(batsman, runs, isBoundary)` (the
`isBoundary` argument is unused in the source as well). -/
def updateBatsmanStats (s : MatchState) (batsman : Player) (runs : Nat)
    (_isBoundary : Bool) : MatchState :=
  let s :=
    match getKey s.batsmanStats batsman.id with
    | some st =>
      let st : BatsmanStat :=
        { st with runs := st.runs + runs
                  balls := st.balls + 1
                  fours := if runs = 4 then st.fours + 1 else st.fours
                  sixes := if runs = 6 then st.sixes + 1 else st.sixes }
      { s with batsmanStats := setKey s.batsmanStats batsman.id st }
    | none => s
  { s with currentPartnership :=
      { s.currentPartnership with
          runs := s.currentPartnership.runs + runs
          balls := s.currentPartnership.balls + 1 } }

/-- `MatchState.updateBowlerStats(bowler, runs, isWicket,
isLegalDelivery)`; `getBowlerStats` initialises a missing entry first. -/
def updateBowlerStats (s : MatchState) (bowlerId : Nat) (runs : Nat)
    (isWicket isLegal : Bool) : MatchState :=
  let st := (getKey s.bowlerStats bowlerId).getD freshBowlerStat
  let st := { st with runs := st.runs + runs }
  let st := if isWicket then { st with wickets := st.wickets + 1 } else st
  let st :=
    if isLegal then
      let st := { st with balls := st.balls + 1
                          currentOverBalls := st.currentOverBalls + 1
                          currentOverRuns := st.currentOverRuns + runs }
      if st.currentOverBalls = 6 then
        { st with overs := st.overs + 1
                  maidens := if st.currentOverRuns = 0 then st.maidens + 1 else st.maidens
                  currentOverRuns := 0
                  currentOverBalls := 0 }
      else st
    else
      if runs = 1 then { st with wides := st.wides + 1 } else st
  { s with bowlerStats := setKey s.bowlerStats bowlerId st }

/-- The shape `matchState.striker.confidence = <clamped update>` shared
by the three striker-confidence writes in `simulateBall` — each reads
the *current* striker reference of the state. -/
def tweakStrikerConf (s : MatchState) (f : Int → Int) : MatchState :=
  match s.striker with
  | some p => { s with striker := some { p with confidence := f p.confidence } }
  | none => s

/-- Outcome-application stage of `simulateBall` (matchSimulator.js lines
313-354): on a wicket, increment `wickets`, run `handleWicket` on the
striker, drop the (possibly replacement) striker's confidence by 10
(floor 20) and raise the bowler's by 15 (cap 100); on a legal
non-wicket delivery, credit the striker, apply the milestone confidence
boost, rotate strike on odd runs, and boost confidence by 5 on a
boundary.  The milestone test comes from `checkMilestone` in
matchUtils.js, which is not under src/; only its Boolean did-cross
verdict feeds back into state, so it is the abstract parameter
`mh previousRuns newRuns` here. -/
def ballApplyOutcome (mh : Nat → Nat → Bool) (s : MatchState)
    (striker bowler : Player) (o : BallOutcome) : MatchState :=
  let strikerStatsOld := getKey s.batsmanStats striker.id
  let previousRuns := (strikerStatsOld.map (fun st => st.runs)).getD 0
  if o.isWicket then
    let s := { s with wickets := s.wickets + 1 }
    let s := handleWicket s striker s.score none none none
    let s := tweakStrikerConf s (fun c => max 20 (c - 10))
    { s with bowler := some { bowler with confidence := min 100 (bowler.confidence + 15) } }
  else if o.isLegalDelivery then
    let s := updateBatsmanStats s striker o.runs (decide (4 ≤ o.runs))
    let s :=
      if strikerStatsOld.isSome then
        let newRuns := ((getKey s.batsmanStats striker.id).map (fun st => st.runs)).getD 0
        if mh previousRuns newRuns then tweakStrikerConf s (fun c => min 100 (c + 10))
        else s
      else s
    let s := if o.runs % 2 = 1 then rotateStrike s else s
    if 4 ≤ o.runs then tweakStrikerConf s (fun c => min 100 (c + 5))
    else s
  else s

/-- Ball/score/extras tracking of `simulateBall` (lines 359-373). -/
def ballTally (s : MatchState) (o : BallOutcome) : MatchState :=
  let s := if o.isLegalDelivery then { s with balls := s.balls + 1 } else s
  let s := { s with score := s.score + o.runs }
  if o.isLegalDelivery then s
  else if o.outcome = ("wide") then { s with extrasWides := s.extrasWides + 1 }
  else if o.outcome = ("no_ball") then { s with extrasNoBalls := s.extrasNoBalls + 1 }
  else s

/-- Bowler-fatigue stage shared by `simulateBall` (lines 377-383, every
12 legal balls, drain 2) and `simulateTestBall` (lines 1058-1064, every
18 legal balls, drain 3): drains only while fitness exceeds 50 and
clamps the result at 50. -/
def ballFatigue (s : MatchState) (o : BallOutcome) (modulus : Nat) (drain : Int) :
    MatchState :=
  match s.bowler with
  | some b =>
    if o.isLegalDelivery ∧ 50 < b.fitness then
      let bst := (getKey s.bowlerStats b.id).getD freshBowlerStat
      if bst.balls % modulus = 0 then
        { s with bowler := some { b with fitness := max 50 (b.fitness - drain) } }
      else s
    else s
  | none => s

/-- `simulateBall(matchState, probabilityEngine)` (lines 301-386): throws
unless both striker and bowler are set; the sampled outcome is the
parameter `o`; commentary pushes are omitted (strings only). -/
def simulateBall (mh : Nat → Nat → Bool) (s : MatchState) (o : BallOutcome) :
    Except String MatchState :=
  match s.striker, s.bowler with
  | some striker, some bowler =>
    let s1 := ballApplyOutcome mh s striker bowler o
    let s2 := updateBowlerStats s1 bowler.id o.runs o.isWicket o.isLegalDelivery
    let s3 := ballTally s2 o
    Except.ok (ballFatigue s3 o 12 2)
  | _, _ => Except.error ("Striker and bowler must be set before simulating a ball")

/-- The `while (ballsInOver < 6 && !isInningsComplete())` loop of
`simulateOver` (lines 399-412).  The probability engine's successive
samples are the finite stream `outcomes`; any concrete execution of the
JS loop consumes a finite prefix, and the recursion stops exactly when
the loop guard fails (or on the early wicket break), returning the
state together with the legal-ball count of the over. -/
def simulateOverGo (mh : Nat → Nat → Bool) (s : MatchState)
    (outcomes : List BallOutcome) (ballsInOver : Nat) :
    Except String (MatchState × Nat) :=
  match outcomes with
  | [] => Except.ok (s, ballsInOver)
  | o :: rest =>
    if ballsInOver < 6 ∧ s.isInningsComplete = false then
      match simulateBall mh s o with
      | Except.error e => Except.error e
      | Except.ok s1 =>
        let b1 := if o.isLegalDelivery then ballsInOver + 1 else ballsInOver
        if o.isWicket = true ∧ s1.isInningsComplete = true then Except.ok (s1, b1)
        else simulateOverGo mh s1 rest b1
    else Except.ok (s, ballsInOver)

/-- `simulateOver(matchState, probabilityEngine)` (lines 394-426): run
the loop, then rotate strike at the end of a full six-legal-ball over
while the innings is still alive (over-summary commentary omitted). -/
def simulateOver (mh : Nat → Nat → Bool) (s : MatchState)
    (outcomes : List BallOutcome) : Except String (MatchState × Nat) :=
  match simulateOverGo mh s outcomes 0 with
  | Except.error e => Except.error e
  | Except.ok (s1, ballsInOver) =>
    Except.ok
      ((if ballsInOver = 6 ∧ s1.isInningsComplete = false then rotateStrike s1 else s1),
        ballsInOver)

/-- The `while (!isInningsComplete())` loop of `simulateInnings` (lines
443-459): each iteration simulates an over, rotates the bowler
(`(idx + 1) % bowlers.length`, undefined on an empty list = `none`),
and updates the dew factor in the second innings.  One entry of
`overStreams` feeds each over. -/
def simulateInningsGo (mh : Nat → Nat → Bool) (s : MatchState)
    (overStreams : List (List BallOutcome)) (bowlers : List Player)
    (maxOversPerBowler : Nat) (idx oversBy : Nat) : Except String MatchState :=
  match overStreams with
  | [] => Except.ok s
  | ov :: rest =>
    if s.isInningsComplete = true then Except.ok s
    else
      match simulateOver mh s ov with
      | Except.error e => Except.error e
      | Except.ok (s1, _) =>
        let oversBy1 := oversBy + 1
        let changeBowler := maxOversPerBowler ≤ oversBy1 ∨ s1.isInningsComplete = false
        let s2 :=
          if changeBowler then { s1 with bowler := bowlers.get? ((idx + 1) % bowlers.length) }
          else s1
        let idx2 := if changeBowler then (idx + 1) % bowlers.length else idx
        let oversBy2 := if changeBowler then 0 else oversBy1
        let s3 :=
          if s2.currentInning = 2 then
            { s2 with conditions := updateDewFactor s2.conditions (s2.balls / 6) }
          else s2
        simulateInningsGo mh s3 rest bowlers maxOversPerBowler idx2 oversBy2

/-- `simulateInnings(matchState, probabilityEngine, bowlers)` (lines
435-459): `maxOversPerBowler = floor(totalOvers / 5)`, the initial
bowler is `bowlers[0]` (undefined = `none` on an empty list);
innings-summary commentary omitted. -/
def simulateInnings (mh : Nat → Nat → Bool) (s : MatchState)
    (overStreams : List (List BallOutcome)) (bowlers : List Player) :
    Except String MatchState :=
  let maxOversPerBowler := s.totalOvers / 5
  let s := { s with bowler := bowlers.get? 0 }
  simulateInningsGo mh s overStreams bowlers maxOversPerBowler 0 0

/-- Archived innings record for the Test `allInnings` slots
(commentary omitted). -/
structure InningsData where
  runs : Nat
  wickets : Nat
  overs : String
  extras : Nat
  fallOfWickets : List FallOfWicket
  declared : Bool
deriving DecidableEq, Repr

/-- `TestMatchState extends MatchState` (matchSimulator.js lines
612-653).  `bowlerSpells`, the session/day summary lists and
`matchResult` are carried by no claim and omitted; the four `allInnings`
slots are `Option` (`null` until archived). -/
structure TestMatchState extends MatchState where
  day : Nat
  session : Nat
  oversInSession : Nat
  totalOversToday : Nat
  inningsNumber : Nat
  sessionBreak : Bool
  matchDays : Nat
  oversPerSession : Nat
  oversPerDay : Nat
  allInningsFirst : Option InningsData
  allInningsSecond : Option InningsData
  allInningsThird : Option InningsData
  allInningsFourth : Option InningsData
  currentBowlerOvers : Nat
  followOnEnforced : Bool
  declared : Bool
deriving DecidableEq, Repr

/-- The `TestMatchState` constructor: `super(team1, team2, 90,
conditions)` plus the Test-specific defaults. -/
def mkTestMatchState (team1 team2 : Team) (conditions : Conditions) : TestMatchState :=
  { toMatchState := mkMatchState team1 team2 90 conditions
    day := 1
    session := 1
    oversInSession := 0
    totalOversToday := 0
    inningsNumber := 1
    sessionBreak := false
    matchDays := 5
    oversPerSession := 30
    oversPerDay := 90
    allInningsFirst := none
    allInningsSecond := none
    allInningsThird := none
    allInningsFourth := none
    currentBowlerOvers := 0
    followOnEnforced := false
    declared := false }

/-- Runs of an archived innings slot.  The JS dereferences
`allInnings.x.runs` unconditionally, so a `null` slot would be a
TypeError there; the `0` default below is never load-bearing — every
theorem whose truth depends on a slot carries a hypothesis pinning that
slot to `some`. -/
def inningsRunsOf : Option InningsData → Nat
  | some d => d.runs
  | none => 0

/-- The fourth-innings target `allInnings.first.runs +
allInnings.third.runs + 1` (lines 681 and 704). -/
def TestMatchState.fourthInningsTarget (s : TestMatchState) : Nat :=
  inningsRunsOf s.allInningsFirst + inningsRunsOf s.allInningsThird + 1

/-- The chasing side's aggregate `allInnings.second.runs + score`
(lines 682 and 705). -/
def TestMatchState.fourthInningsTotal (s : TestMatchState) : Nat :=
  inningsRunsOf s.allInningsSecond + s.score

/-- `TestMatchState.isMatchComplete()` (lines 672-690), clauses in
source order: all four innings done, bowled out in the fourth, target
chased in the fourth, or five days elapsed. -/
def TestMatchState.isMatchComplete (s : TestMatchState) : Bool :=
  if 4 < s.inningsNumber then true
  else if s.inningsNumber = 4 ∧ 10 ≤ s.wickets then true
  else if s.inningsNumber = 4 ∧ s.fourthInningsTarget ≤ s.fourthInningsTotal then true
  else if s.matchDays < s.day then true
  else false

/-- `TestMatchState.isInningsComplete()` (lines 695-710), overriding the
limited-overs rule: all out, declared, or (fourth innings only) target
achieved — no overs-exhausted clause. -/
def TestMatchState.isInningsComplete (s : TestMatchState) : Bool :=
  if 10 ≤ s.wickets then true
  else if s.declared then true
  else if s.inningsNumber = 4 ∧ s.fourthInningsTarget ≤ s.fourthInningsTotal then true
  else false

/-- `TestMatchState.switchInnings()` (lines 778-828): archive the
finished innings into the slot selected by `inningsNumber` (the JS
`switch` has no default case, so numbers outside 1-4 archive nothing),
increment `inningsNumber`, swap team roles when the *new* number is 2
or 4, and reset the per-innings counters.  The source has no guard
against `inningsNumber` already exceeding 4 and returns `undefined`. -/
def TestMatchState.switchInnings (s : TestMatchState) : TestMatchState :=
  let inningsData : InningsData :=
    { runs := s.score
      wickets := s.wickets
      overs := s.getCurrentOver
      extras := s.extrasWides + s.extrasNoBalls + s.extrasByes + s.extrasLegByes
      fallOfWickets := s.fallOfWickets
      declared := s.declared }
  let s :=
    if s.inningsNumber = 1 then { s with allInningsFirst := some inningsData }
    else if s.inningsNumber = 2 then { s with allInningsSecond := some inningsData }
    else if s.inningsNumber = 3 then { s with allInningsThird := some inningsData }
    else if s.inningsNumber = 4 then { s with allInningsFourth := some inningsData }
    else s
  let s := { s with inningsNumber := s.inningsNumber + 1 }
  let s :=
    if s.inningsNumber = 2 ∨ s.inningsNumber = 4 then
      { s with battingTeam := s.bowlingTeam, bowlingTeam := s.battingTeam }
    else s
  { s with score := 0
           wickets := 0
           balls := 0
           fallOfWickets := []
           partnerships := []
           extrasWides := 0
           extrasNoBalls := 0
           extrasByes := 0
           extrasLegByes := 0
           batsmanStats := []
           bowlerStats := []
           declared := false }

/-- `TestMatchState.checkFollowOn()` (lines 864-871): only after the
second innings, and only when the first-innings total leads the current
score by at least 200 (`deficit` is plain JS subtraction, hence `Int`). -/
def TestMatchState.checkFollowOn (s : TestMatchState) : Bool :=
  if s.inningsNumber ≠ 2 then false
  else decide (200 ≤ (inningsRunsOf s.allInningsFirst : Int) - (s.score : Int))

/-- The per-player overnight recovery applied by
`recoverBowlerFitness` (lines 766-773): `+15`, capped at 100, only for
players below 100. -/
def recoverFitness (f : Int) : Int :=
  if f < 100 then min 100 (f + 15) else f

/-- `TestMatchState.recoverBowlerFitness()`: every player of the bowling
team recovers overnight. -/
def TestMatchState.recoverBowlerFitness (s : TestMatchState) : TestMatchState :=
  { s with bowlingTeam :=
      { s.bowlingTeam with players :=
          s.bowlingTeam.players.map (fun p => { p with fitness := recoverFitness p.fitness }) } }

/-- Ball/score/extras tracking of `simulateTestBall` (lines 1037-1054):
as in `simulateBall`, plus the session bookkeeping — after `balls++`,
`oversInSession += floor(balls/6) - floor((balls-1)/6)`,
`totalOversToday = floor(balls/6)` and `currentBowlerOvers++`. -/
def testBallTally (s : TestMatchState) (o : BallOutcome) : TestMatchState :=
  let s :=
    if o.isLegalDelivery then
      let balls1 := s.balls + 1
      { s with toMatchState := { s.toMatchState with balls := balls1 }
               oversInSession := balls1 / 6 - (balls1 - 1) / 6 + s.oversInSession
               totalOversToday := balls1 / 6
               currentBowlerOvers := s.currentBowlerOvers + 1 }
    else s
  let s := { s with toMatchState := { s.toMatchState with score := s.score + o.runs } }
  if o.isLegalDelivery then s
  else if o.outcome = ("wide") then
    { s with toMatchState := { s.toMatchState with extrasWides := s.extrasWides + 1 } }
  else if o.outcome = ("no_ball") then
    { s with toMatchState := { s.toMatchState with extrasNoBalls := s.extrasNoBalls + 1 } }
  else s

/-- `simulateTestBall(matchState, probabilityEngine)` (lines 979-1067):
the body duplicates `simulateBall` except for the session tracking in
the tally stage and the heavier fatigue (every 18 legal balls, drain
3); the same guard throws when striker or bowler is unset. -/
def simulateTestBall (mh : Nat → Nat → Bool) (s : TestMatchState) (o : BallOutcome) :
    Except String TestMatchState :=
  match s.striker, s.bowler with
  | some striker, some bowler =>
    let s1 : TestMatchState :=
      { s with toMatchState := ballApplyOutcome mh s.toMatchState striker bowler o }
    let s2 : TestMatchState :=
      { s1 with toMatchState :=
          updateBowlerStats s1.toMatchState bowler.id o.runs o.isWicket o.isLegalDelivery }
    let s3 := testBallTally s2 o
    Except.ok { s3 with toMatchState := ballFatigue s3.toMatchState o 18 3 }
  | _, _ => Except.error ("Striker and bowler must be set before simulating a ball")

/-!  Bowling Manager — the `src/unnamed/part_013` variant of
`BowlingManager`, whose `selectNextBowler(currentOver, matchState,
previousBowler)` dispatches purely on `currentOver` and threads
`previousBowler` into each phase selector.  (`matchState` is passed
through to `selectMiddleOversBowler` but never read there, so it is
dropped from the embedded signatures; `shouldChangeBowler` is not
reachable from this variant's `selectNextBowler` and is not embedded.) -/

/-- The slice of a player the manager reads: `id`, `bowling.style`
(`?.` on a missing style yields the empty string), `getBowlingRating()`
precomputed as `rating`, and the optional `fitness`. -/
structure Bowler where
  id : Nat
  style : String
  rating : Int
  fitness : Option Int
deriving DecidableEq, Repr

/-- Token used by the `style.includes('spin')` checks. -/
def spinToken : String := "spin"

/-- Whether the first character sequence starts the second. -/
def startsWithSeq : List Char → List Char → Bool
  | [], _ => true
  | _ :: _, [] => false
  | a :: as, b :: bs => a == b && startsWithSeq as bs

/-- Whether the first character sequence occurs inside the second. -/
def containsSeq (needle : List Char) : List Char → Bool
  | [] => startsWithSeq needle []
  | c :: cs => startsWithSeq needle (c :: cs) || containsSeq needle cs

/-- JS `style.includes('spin')`: substring containment over the
underlying character sequences. -/
def includesSpin (style : String) : Bool :=
  containsSeq spinToken.data style.data

/-- Stable insertion into a list kept sorted by the strict
comes-before test `lt` — the element is placed before the first entry
it strictly precedes, matching the stability of JS `Array.sort`. -/
def insertByBool (lt : α → α → Bool) (x : α) : List α → List α
  | [] => [x]
  | y :: ys => if lt x y then x :: y :: ys else y :: insertByBool lt x ys

/-- Stable sort by the strict comes-before test `lt` (models JS
`Array.prototype.sort`, which is stable). -/
def sortByBool (lt : α → α → Bool) (l : List α) : List α :=
  l.foldl (fun acc x => insertByBool lt x acc) []

/-- Spell/rest/overs bookkeeping plus the categorised pools
(`categorizeBowlers`): the two best-rated non-spin bowlers open, the
next three are first change, spinners form their own rated pool. -/
structure BowlingManager where
  allBowlers : List Bowler
  openingBowlers : List Bowler
  firstChange : List Bowler
  spinners : List Bowler
  currentSpells : List (Nat × Nat)
  restingSince : List (Nat × Option Nat)
  totalOversBowled : List (Nat × Nat)
deriving DecidableEq, Repr

/-- The `BowlingManager` constructor with `categorizeBowlers()`:
partition by `includes('spin')`, sort each pool by rating descending
(`(a, b) => b.getBowlingRating() - a.getBowlingRating()`), slice
openers/first-change, and seed the three tracking maps. -/
def mkBowlingManager (bowlers : List Bowler) : BowlingManager :=
  let pace := bowlers.filter (fun b => !includesSpin b.style)
  let spin := bowlers.filter (fun b => includesSpin b.style)
  let paceSorted := sortByBool (fun a b => decide (b.rating < a.rating)) pace
  { allBowlers := bowlers
    openingBowlers := paceSorted.take 2
    firstChange := (paceSorted.drop 2).take 3
    spinners := sortByBool (fun a b => decide (b.rating < a.rating)) spin
    currentSpells := bowlers.map (fun b => (b.id, 0))
    restingSince := bowlers.map (fun b => (b.id, none))
    totalOversBowled := bowlers.map (fun b => (b.id, 0)) }

/-- `b.id !== previousBowler?.id` (`?.` on `null` gives `undefined`,
which never equals a number). -/
def notPrev (previousBowler : Option Bowler) (b : Bowler) : Bool :=
  match previousBowler with
  | none => true
  | some p => b.id != p.id

/-- `canBowlAgain(bowler, currentOver)` (part_013 lines 252-271): a
never-rested bowler (`null` entry) may bowl; otherwise pace needs 10
overs of rest and spin 5 (`restOvers` is plain JS subtraction, hence
`Int`).  A bowler missing from the map gives `undefined`, whose NaN
arithmetic makes every comparison false — unreachable, since the
constructor seeds every id. -/
def BowlingManager.canBowlAgain (m : BowlingManager) (b : Bowler) (currentOver : Nat) :
    Bool :=
  match getKey m.restingSince b.id with
  | some none => true
  | some (some lastBowled) =>
    let restOvers : Int := (currentOver : Int) - (lastBowled : Int)
    if !includesSpin b.style then decide (10 ≤ restOvers)
    else decide (5 ≤ restOvers)
  | none => false

/-- `findAnyAvailableBowler(currentOver, previousBowler)` (lines
188-205): first pass also requires rest, second pass only excludes the
previous bowler, absolute last resort is `allBowlers[0]`. -/
def BowlingManager.findAnyAvailableBowler (m : BowlingManager) (currentOver : Nat)
    (previousBowler : Option Bowler) : Option Bowler :=
  match m.allBowlers.find? (fun b => notPrev previousBowler b && m.canBowlAgain b currentOver) with
  | some b => some b
  | none =>
    match m.allBowlers.find? (fun b => notPrev previousBowler b) with
    | some b => some b
    | none => m.allBowlers.get? 0

/-- `selectOpeningBowler(currentOver, previousBowler)` (lines 90-109):
with no openers, `allBowlers[0]`; with no previous bowler, the first
opener; otherwise the first opener with a different id, falling back to
`openingBowlers[0]` when the filter leaves nothing. -/
def BowlingManager.selectOpeningBowler (m : BowlingManager) (_currentOver : Nat)
    (previousBowler : Option Bowler) : Option Bowler :=
  if m.openingBowlers.isEmpty then m.allBowlers.get? 0
  else
    match previousBowler with
    | none => m.openingBowlers.get? 0
    | some prev =>
      let availableOpeners := m.openingBowlers.filter (fun b => b.id != prev.id)
      match availableOpeners.get? 0 with
      | some b => some b
      | none => m.openingBowlers.get? 0

/-- Spell length of a bowler per the `currentSpells` map (`Map.get` on
a seeded map; `getD 0` mirrors the constructor's seeding). -/
def BowlingManager.spellOf (m : BowlingManager) (b : Bowler) : Nat :=
  (getKey m.currentSpells b.id).getD 0

/-- Total overs bowled per the `totalOversBowled` map. -/
def BowlingManager.oversOf (m : BowlingManager) (b : Bowler) : Nat :=
  (getKey m.totalOversBowled b.id).getD 0

/-- `selectFirstChangeBowler(currentOver, previousBowler)` (lines
114-139): rested first-change bowlers sorted by current spell
ascending; else rested openers; else `findAnyAvailableBowler`. -/
def BowlingManager.selectFirstChangeBowler (m : BowlingManager) (currentOver : Nat)
    (previousBowler : Option Bowler) : Option Bowler :=
  let availableFirstChange := m.firstChange.filter
    (fun b => m.canBowlAgain b currentOver && notPrev previousBowler b)
  if !availableFirstChange.isEmpty then
    (sortByBool (fun a b => decide (m.spellOf a < m.spellOf b)) availableFirstChange).get? 0
  else
    let availableOpeners := m.openingBowlers.filter
      (fun b => m.canBowlAgain b currentOver && notPrev previousBowler b)
    match availableOpeners.get? 0 with
    | some b => some b
    | none => m.findAnyAvailableBowler currentOver previousBowler

/-- `selectMiddleOversBowler(currentOver, matchState, previousBowler)`
(lines 144-183): collect rested candidates with priorities (spinners 3
once over 20+, openers 2, first change 1), fall back to
`findAnyAvailableBowler` when empty, else sort by priority descending
then total overs ascending and take the head. -/
def BowlingManager.middleOversCandidates (m : BowlingManager) (currentOver : Nat)
    (previousBowler : Option Bowler) : List (Bowler × Nat) :=
  (if 20 ≤ currentOver ∧ ¬ m.spinners.isEmpty then
    (m.spinners.filter
      (fun b => m.canBowlAgain b currentOver && notPrev previousBowler b)).map
      (fun b => (b, 3))
  else []) ++
  (m.openingBowlers.filter
    (fun b => m.canBowlAgain b currentOver && notPrev previousBowler b)).map
    (fun b => (b, 2)) ++
  (m.firstChange.filter
    (fun b => m.canBowlAgain b currentOver && notPrev previousBowler b)).map
    (fun b => (b, 1))

/-- `selectMiddleOversBowler(currentOver, matchState, previousBowler)`
continued: fall back when no candidate, else sort and take the head. -/
def BowlingManager.selectMiddleOversBowler (m : BowlingManager) (currentOver : Nat)
    (previousBowler : Option Bowler) : Option Bowler :=
  let availableBowlers := m.middleOversCandidates currentOver previousBowler
  if availableBowlers.isEmpty then m.findAnyAvailableBowler currentOver previousBowler
  else
    let sorted := sortByBool
      (fun a b =>
        if a.2 ≠ b.2 then decide (b.2 < a.2)
        else decide (m.oversOf a.1 < m.oversOf b.1))
      availableBowlers
    (sorted.get? 0).map (fun bp => bp.1)

/-- `selectNextBowler(currentOver, matchState, previousBowler)`
(part_013 lines 72-85): opening spell below over 10, first change below
over 25, middle overs from 25. -/
def BowlingManager.selectNextBowler (m : BowlingManager) (currentOver : Nat)
    (previousBowler : Option Bowler) : Option Bowler :=
  if currentOver < 10 then m.selectOpeningBowler currentOver previousBowler
  else if currentOver < 25 then m.selectFirstChangeBowler currentOver previousBowler
  else m.selectMiddleOversBowler currentOver previousBowler

/-- `normalizeProbabilities(probabilities)` — identical in
probabilityEngine.js (lines 185-194) and testProbabilityEngine.js
(lines 232-241): divide each entry by the total of all entries and
multiply by 100, keeping the key set.  `Object.entries` order is
insertion order, modelled by the list; values are exact rationals. -/
def normalizeProbabilities (probabilities : List (String × Rat)) : List (String × Rat) :=
  let total := (probabilities.map (fun kv => kv.2)).sum
  probabilities.map (fun kv => (kv.1, kv.2 / total * 100))

/-!  Concrete data for the witnesses and counterexamples. -/

/-- Neutral conditions for the sample states. -/
def condW : Conditions := { pitchWear := 0, dewFactor := 0 }

/-- A sample player in perfect shape. -/
def playerW (i : Nat) : Player :=
  { id := i, name := ("player ") ++ toString i, confidence := 100, fitness := 100 }

/-- Sample batting side. -/
def teamAW : Team :=
  { name := ("Side A"), players := [playerW 1, playerW 2, playerW 3, playerW 4] }

/-- Sample bowling side. -/
def teamBW : Team :=
  { name := ("Side B"), players := [playerW 11, playerW 12, playerW 13, playerW 14] }

/-- A fresh limited-overs state with openers at the crease and a bowler
assigned. -/
def stateW : MatchState :=
  { initializeBatsmen (mkMatchState teamAW teamBW 20 condW) teamAW.players with
      bowler := some (playerW 11) }

/-- A finished sample innings record with the given run total. -/
def inningsW (r : Nat) : InningsData :=
  { runs := r, wickets := 10, overs := ballsToOvers 300, extras := 0,
    fallOfWickets := [], declared := false }

/-- A fresh Test state with openers at the crease and a bowler assigned. -/
def testStateW : TestMatchState :=
  { mkTestMatchState teamAW teamBW condW with
      toMatchState :=
        { initializeBatsmen (mkMatchState teamAW teamBW 90 condW) teamAW.players with
            bowler := some (playerW 11) } }

/-- Fourth-innings chase: first 300, second 280, third 200, so the
target is 501; the current score 221 brings the aggregate to exactly
501. -/
def chaseReachedW : TestMatchState :=
  { testStateW with
      inningsNumber := 4
      allInningsFirst := some (inningsW 300)
      allInningsSecond := some (inningsW 280)
      allInningsThird := some (inningsW 200)
      toMatchState := { testStateW.toMatchState with score := 221 }
      day := 5 }

/-- Second innings trailing the first (300) by exactly 199. -/
def followOn199W : TestMatchState :=
  { testStateW with
      inningsNumber := 2
      allInningsFirst := some (inningsW 300)
      toMatchState := { testStateW.toMatchState with score := 101 } }

/-- Second innings trailing the first (300) by exactly 200. -/
def followOn200W : TestMatchState :=
  { testStateW with
      inningsNumber := 2
      allInningsFirst := some (inningsW 300)
      toMatchState := { testStateW.toMatchState with score := 100 } }

/-- A Test state on which `switchInnings()` would be a fifth switch. -/
def pastFourthW : TestMatchState :=
  { testStateW with
      inningsNumber := 5
      allInningsFirst := some (inningsW 300)
      allInningsSecond := some (inningsW 280)
      allInningsThird := some (inningsW 200)
      allInningsFourth := some (inningsW 221)
      toMatchState := { testStateW.toMatchState with score := 37 } }

/-!  Field-preservation lemmas for the ball-application stages. -/

@[simp]
theorem tweakStrikerConf_nonStriker (s : MatchState) (f : Int → Int) :
    (tweakStrikerConf s f).nonStriker = s.nonStriker := by
  unfold tweakStrikerConf
  split <;> rfl

@[simp]
theorem tweakStrikerConf_wickets (s : MatchState) (f : Int → Int) :
    (tweakStrikerConf s f).wickets = s.wickets := by
  unfold tweakStrikerConf
  split <;> rfl

@[simp]
theorem tweakStrikerConf_bowler (s : MatchState) (f : Int → Int) :
    (tweakStrikerConf s f).bowler = s.bowler := by
  unfold tweakStrikerConf
  split <;> rfl

theorem tweakStrikerConf_striker (s : MatchState) (f : Int → Int) (p : Player)
    (h : s.striker = some p) :
    (tweakStrikerConf s f).striker = some { p with confidence := f p.confidence } := by
  unfold tweakStrikerConf
  rw [h]

@[simp]
theorem updateBatsmanStats_striker (s : MatchState) (b : Player) (r : Nat) (ib : Bool) :
    (updateBatsmanStats s b r ib).striker = s.striker := by
  unfold updateBatsmanStats
  split <;> rfl

@[simp]
theorem updateBatsmanStats_nonStriker (s : MatchState) (b : Player) (r : Nat) (ib : Bool) :
    (updateBatsmanStats s b r ib).nonStriker = s.nonStriker := by
  unfold updateBatsmanStats
  split <;> rfl

@[simp]
theorem updateBatsmanStats_wickets (s : MatchState) (b : Player) (r : Nat) (ib : Bool) :
    (updateBatsmanStats s b r ib).wickets = s.wickets := by
  unfold updateBatsmanStats
  split <;> rfl

@[simp]
theorem updateBatsmanStats_bowler (s : MatchState) (b : Player) (r : Nat) (ib : Bool) :
    (updateBatsmanStats s b r ib).bowler = s.bowler := by
  unfold updateBatsmanStats
  split <;> rfl

@[simp]
theorem updateBowlerStats_striker (s : MatchState) (i r : Nat) (w l : Bool) :
    (updateBowlerStats s i r w l).striker = s.striker := rfl

@[simp]
theorem updateBowlerStats_nonStriker (s : MatchState) (i r : Nat) (w l : Bool) :
    (updateBowlerStats s i r w l).nonStriker = s.nonStriker := rfl

@[simp]
theorem updateBowlerStats_wickets (s : MatchState) (i r : Nat) (w l : Bool) :
    (updateBowlerStats s i r w l).wickets = s.wickets := rfl

@[simp]
theorem updateBowlerStats_bowler (s : MatchState) (i r : Nat) (w l : Bool) :
    (updateBowlerStats s i r w l).bowler = s.bowler := rfl

@[simp]
theorem rotateStrike_striker (s : MatchState) : (rotateStrike s).striker = s.nonStriker := rfl

@[simp]
theorem rotateStrike_nonStriker (s : MatchState) : (rotateStrike s).nonStriker = s.striker := rfl

@[simp]
theorem rotateStrike_wickets (s : MatchState) : (rotateStrike s).wickets = s.wickets := rfl

@[simp]
theorem rotateStrike_bowler (s : MatchState) : (rotateStrike s).bowler = s.bowler := rfl

@[simp]
theorem ballTally_striker (s : MatchState) (o : BallOutcome) :
    (ballTally s o).striker = s.striker := by
  simp only [ballTally]
  split_ifs <;> rfl

@[simp]
theorem ballTally_nonStriker (s : MatchState) (o : BallOutcome) :
    (ballTally s o).nonStriker = s.nonStriker := by
  simp only [ballTally]
  split_ifs <;> rfl

@[simp]
theorem ballTally_wickets (s : MatchState) (o : BallOutcome) :
    (ballTally s o).wickets = s.wickets := by
  simp only [ballTally]
  split_ifs <;> rfl

@[simp]
theorem ballTally_bowler (s : MatchState) (o : BallOutcome) :
    (ballTally s o).bowler = s.bowler := by
  simp only [ballTally]
  split_ifs <;> rfl

@[simp]
theorem ballFatigue_striker (s : MatchState) (o : BallOutcome) (m : Nat) (d : Int) :
    (ballFatigue s o m d).striker = s.striker := by
  simp only [ballFatigue]
  split <;> try rfl
  split_ifs <;> rfl

@[simp]
theorem ballFatigue_nonStriker (s : MatchState) (o : BallOutcome) (m : Nat) (d : Int) :
    (ballFatigue s o m d).nonStriker = s.nonStriker := by
  simp only [ballFatigue]
  split <;> try rfl
  split_ifs <;> rfl

@[simp]
theorem ballFatigue_wickets (s : MatchState) (o : BallOutcome) (m : Nat) (d : Int) :
    (ballFatigue s o m d).wickets = s.wickets := by
  simp only [ballFatigue]
  split <;> try rfl
  split_ifs <;> rfl

@[simp]
theorem hwRecordFall_striker (s : MatchState) (b : Player) :
    (hwRecordFall s b).striker = s.striker := rfl

@[simp]
theorem hwRecordFall_nonStriker (s : MatchState) (b : Player) :
    (hwRecordFall s b).nonStriker = s.nonStriker := rfl

@[simp]
theorem hwRecordFall_wickets (s : MatchState) (b : Player) :
    (hwRecordFall s b).wickets = s.wickets := rfl

@[simp]
theorem hwRecordFall_bowler (s : MatchState) (b : Player) :
    (hwRecordFall s b).bowler = s.bowler := rfl

@[simp]
theorem hwMarkOut_striker (s : MatchState) (b : Player) (wt : Option String)
    (bw : Option Player) (f : Option String) :
    (hwMarkOut s b wt bw f).striker = s.striker := by
  unfold hwMarkOut
  split <;> rfl

@[simp]
theorem hwMarkOut_nonStriker (s : MatchState) (b : Player) (wt : Option String)
    (bw : Option Player) (f : Option String) :
    (hwMarkOut s b wt bw f).nonStriker = s.nonStriker := by
  unfold hwMarkOut
  split <;> rfl

@[simp]
theorem hwMarkOut_wickets (s : MatchState) (b : Player) (wt : Option String)
    (bw : Option Player) (f : Option String) :
    (hwMarkOut s b wt bw f).wickets = s.wickets := by
  unfold hwMarkOut
  split <;> rfl

@[simp]
theorem hwMarkOut_bowler (s : MatchState) (b : Player) (wt : Option String)
    (bw : Option Player) (f : Option String) :
    (hwMarkOut s b wt bw f).bowler = s.bowler := by
  unfold hwMarkOut
  split <;> rfl

@[simp]
theorem hwArchivePartnership_striker (s : MatchState) :
    (hwArchivePartnership s).striker = s.striker := by
  unfold hwArchivePartnership
  split_ifs <;> rfl

@[simp]
theorem hwArchivePartnership_nonStriker (s : MatchState) :
    (hwArchivePartnership s).nonStriker = s.nonStriker := by
  unfold hwArchivePartnership
  split_ifs <;> rfl

@[simp]
theorem hwArchivePartnership_wickets (s : MatchState) :
    (hwArchivePartnership s).wickets = s.wickets := by
  unfold hwArchivePartnership
  split_ifs <;> rfl

@[simp]
theorem hwArchivePartnership_bowler (s : MatchState) :
    (hwArchivePartnership s).bowler = s.bowler := by
  unfold hwArchivePartnership
  split_ifs <;> rfl

@[simp]
theorem hwNextBatsman_wickets (s : MatchState) (b : Player) :
    (hwNextBatsman s b).wickets = s.wickets := by
  simp only [hwNextBatsman]
  split <;> try rfl
  split_ifs <;> rfl

@[simp]
theorem hwNextBatsman_bowler (s : MatchState) (b : Player) :
    (hwNextBatsman s b).bowler = s.bowler := by
  simp only [hwNextBatsman]
  split <;> try rfl
  split_ifs <;> rfl

theorem hwNextBatsman_nonStriker (s : MatchState) (b : Player)
    (h : s.striker = some b) :
    (hwNextBatsman s b).nonStriker = s.nonStriker := by
  simp only [hwNextBatsman]
  split
  · rw [if_pos (by simpa using h)]
  · rfl

@[simp]
theorem handleWicket_wickets (s : MatchState) (b : Player) (r : Nat)
    (wt : Option String) (bw : Option Player) (f : Option String) :
    (handleWicket s b r wt bw f).wickets = s.wickets := by
  unfold handleWicket
  simp

@[simp]
theorem handleWicket_bowler (s : MatchState) (b : Player) (r : Nat)
    (wt : Option String) (bw : Option Player) (f : Option String) :
    (handleWicket s b r wt bw f).bowler = s.bowler := by
  unfold handleWicket
  simp

theorem handleWicket_nonStriker (s : MatchState) (b : Player) (r : Nat)
    (wt : Option String) (bw : Option Player) (f : Option String)
    (h : s.striker = some b) :
    (handleWicket s b r wt bw f).nonStriker = s.nonStriker := by
  unfold handleWicket
  rw [hwNextBatsman_nonStriker]
  · simp
  · simp [h]

@[simp]
theorem ballApplyOutcome_wickets (mh : Nat → Nat → Bool) (s : MatchState)
    (stp bwp : Player) (o : BallOutcome) :
    (ballApplyOutcome mh s stp bwp o).wickets
      = s.wickets + (if o.isWicket then 1 else 0) := by
  simp only [ballApplyOutcome]
  split_ifs <;> simp

theorem ballApplyOutcome_bowler (mh : Nat → Nat → Bool) (s : MatchState)
    (stp bwp : Player) (o : BallOutcome) :
    (ballApplyOutcome mh s stp bwp o).bowler
        = some { bwp with confidence := min 100 (bwp.confidence + 15) } ∨
      (ballApplyOutcome mh s stp bwp o).bowler = s.bowler := by
  simp only [ballApplyOutcome]
  split_ifs <;> simp

theorem wickets_lt_of_innings_alive (s : MatchState)
    (h : s.isInningsComplete = false) : s.wickets < 10 := by
  simp only [MatchState.isInningsComplete, Bool.or_eq_false_iff,
    decide_eq_false_iff_not, not_le] at h
  exact h.1

theorem simulateBall_wickets (mh : Nat → Nat → Bool) (s : MatchState)
    (o : BallOutcome) (s' : MatchState) (h : simulateBall mh s o = Except.ok s') :
    s'.wickets = s.wickets + (if o.isWicket then 1 else 0) := by
  cases hst : s.striker with
  | none => simp [simulateBall, hst] at h
  | some stv =>
    cases hbw : s.bowler with
    | none => simp [simulateBall, hst, hbw] at h
    | some bwv =>
      simp only [simulateBall, hst, hbw, Except.ok.injEq] at h
      subst h
      simp

theorem simulateOverGo_wickets (mh : Nat → Nat → Bool) :
    ∀ (outs : List BallOutcome) (s : MatchState) (bIn : Nat)
      (s' : MatchState) (b' : Nat), s.wickets ≤ 10 →
      simulateOverGo mh s outs bIn = Except.ok (s', b') → s'.wickets ≤ 10 := by
  intro outs
  induction outs with
  | nil =>
    intro s bIn s' b' hw h
    simp only [simulateOverGo, Except.ok.injEq, Prod.mk.injEq] at h
    rw [← h.1]
    exact hw
  | cons o rest ih =>
    intro s bIn s' b' hw h
    simp only [simulateOverGo] at h
    by_cases hguard : bIn < 6 ∧ s.isInningsComplete = false
    · rw [if_pos hguard] at h
      cases hsb : simulateBall mh s o with
      | error e => rw [hsb] at h; simp at h
      | ok s1 =>
        simp only [hsb] at h
        have hlt : s.wickets < 10 := wickets_lt_of_innings_alive s hguard.2
        have heq := simulateBall_wickets mh s o s1 hsb
        have hw1 : s1.wickets ≤ 10 := by
          rw [heq]
          split <;> omega
        by_cases hbreak : o.isWicket = true ∧ s1.isInningsComplete = true
        · rw [if_pos hbreak] at h
          injection h with h
          injection h with h1 h2
          rw [← h1]
          exact hw1
        · rw [if_neg hbreak] at h
          exact ih s1 _ s' b' hw1 h
    · rw [if_neg hguard] at h
      injection h with h
      injection h with h1 h2
      rw [← h1]
      exact hw

theorem simulateOver_wickets (mh : Nat → Nat → Bool) (s : MatchState)
    (outs : List BallOutcome) (s' : MatchState) (b' : Nat)
    (hw : s.wickets ≤ 10) (h : simulateOver mh s outs = Except.ok (s', b')) :
    s'.wickets ≤ 10 := by
  simp only [simulateOver] at h
  cases hgo : simulateOverGo mh s outs 0 with
  | error e => rw [hgo] at h; simp at h
  | ok p =>
    rw [hgo] at h
    simp only [Except.ok.injEq, Prod.mk.injEq] at h
    have hp := simulateOverGo_wickets mh outs s 0 p.1 p.2 hw (by rw [hgo])
    rw [← h.1]
    split_ifs <;> simpa

theorem simulateInningsGo_wickets (mh : Nat → Nat → Bool)
    (bowlers : List Player) (maxO : Nat) :
    ∀ (streams : List (List BallOutcome)) (s : MatchState) (idx oversBy : Nat)
      (s' : MatchState), s.wickets ≤ 10 →
      simulateInningsGo mh s streams bowlers maxO idx oversBy = Except.ok s' →
      s'.wickets ≤ 10 := by
  intro streams
  induction streams with
  | nil =>
    intro s idx oversBy s' hw h
    simp only [simulateInningsGo, Except.ok.injEq] at h
    rw [← h]
    exact hw
  | cons ov rest ih =>
    intro s idx oversBy s' hw h
    simp only [simulateInningsGo] at h
    split_ifs at h with hdone
    · simp only [Except.ok.injEq] at h
      rw [← h]
      exact hw
    · cases hov : simulateOver mh s ov with
      | error e => rw [hov] at h; simp at h
      | ok p =>
        obtain ⟨s1, b1⟩ := p
        simp only [hov] at h
        have hw1 : s1.wickets ≤ 10 :=
          simulateOver_wickets mh s ov s1 b1 hw (by rw [hov])
        split_ifs at h <;> exact ih _ _ _ s' (by simpa using hw1) h

/-- The at-the-crease pair by id: used to track who holds the strike
through the confidence tweaks, which change only a player's
`confidence` field. -/
def StrikePair (s : MatchState) (x y : Nat) : Prop :=
  (∃ a, s.striker = some a ∧ a.id = x) ∧ (∃ b, s.nonStriker = some b ∧ b.id = y)

theorem StrikePair.tweak {s : MatchState} {x y : Nat} (f : Int → Int)
    (h : StrikePair s x y) : StrikePair (tweakStrikerConf s f) x y := by
  obtain ⟨⟨a, ha, hax⟩, ⟨b, hb, hby⟩⟩ := h
  exact ⟨⟨_, tweakStrikerConf_striker s f a ha, hax⟩, ⟨b, by simp [hb], hby⟩⟩

theorem StrikePair.update {s : MatchState} {x y : Nat} (p : Player) (r : Nat) (ib : Bool)
    (h : StrikePair s x y) : StrikePair (updateBatsmanStats s p r ib) x y := by
  obtain ⟨⟨a, ha, hax⟩, ⟨b, hb, hby⟩⟩ := h
  exact ⟨⟨a, by simp [ha], hax⟩, ⟨b, by simp [hb], hby⟩⟩

theorem StrikePair.rotate {s : MatchState} {x y : Nat}
    (h : StrikePair s x y) : StrikePair (rotateStrike s) y x := by
  obtain ⟨⟨a, ha, hax⟩, ⟨b, hb, hby⟩⟩ := h
  exact ⟨⟨b, by simp [hb], hby⟩, ⟨a, by simp [ha], hax⟩⟩

theorem StrikePair.elim {s : MatchState} {x y : Nat} (h : StrikePair s x y) :
    ∃ a b, s.striker = some a ∧ s.nonStriker = some b ∧ a.id = x ∧ b.id = y := by
  obtain ⟨⟨a, ha, hax⟩, ⟨b, hb, hby⟩⟩ := h
  exact ⟨a, b, ha, hb, hax, hby⟩

/-- On a legal non-wicket delivery with odd runs, `ballApplyOutcome`
swaps the pair at the crease (identities swap; confidence fields may
have been tweaked). -/
theorem ballApplyOutcome_odd_rotates (mh : Nat → Nat → Bool) (s : MatchState)
    (stp bwp stv nsv : Player) (o : BallOutcome)
    (hst : s.striker = some stv) (hns : s.nonStriker = some nsv)
    (hW : o.isWicket = false) (hL : o.isLegalDelivery = true) (hodd : o.runs % 2 = 1) :
    ∃ a b, (ballApplyOutcome mh s stp bwp o).striker = some a ∧
      (ballApplyOutcome mh s stp bwp o).nonStriker = some b ∧
      a.id = nsv.id ∧ b.id = stv.id := by
  have base : StrikePair s stv.id nsv.id := ⟨⟨stv, hst, rfl⟩, ⟨nsv, hns, rfl⟩⟩
  refine StrikePair.elim ?_
  simp only [ballApplyOutcome, hW, hL, hodd, Bool.false_eq_true, if_false, if_true]
  split_ifs
  all_goals first
  | exact ((((base.update _ _ _).tweak _).rotate).tweak _)
  | exact (((base.update _ _ _).tweak _).rotate)
  | exact (((base.update _ _ _).rotate).tweak _)
  | exact ((base.update _ _ _).rotate)

/-- On a legal non-wicket delivery with even runs, or on an illegal
delivery without a wicket, the pair at the crease keeps its order. -/
theorem ballApplyOutcome_keeps_order (mh : Nat → Nat → Bool) (s : MatchState)
    (stp bwp stv nsv : Player) (o : BallOutcome)
    (hst : s.striker = some stv) (hns : s.nonStriker = some nsv)
    (hW : o.isWicket = false)
    (hE : o.isLegalDelivery = false ∨ o.runs % 2 = 0) :
    ∃ a b, (ballApplyOutcome mh s stp bwp o).striker = some a ∧
      (ballApplyOutcome mh s stp bwp o).nonStriker = some b ∧
      a.id = stv.id ∧ b.id = nsv.id := by
  have base : StrikePair s stv.id nsv.id := ⟨⟨stv, hst, rfl⟩, ⟨nsv, hns, rfl⟩⟩
  refine StrikePair.elim ?_
  rcases hE with hE | hE
  · simp only [ballApplyOutcome, hW, hE, Bool.false_eq_true, if_false]
    exact base
  · have hodd : ¬ (o.runs % 2 = 1) := by omega
    simp only [ballApplyOutcome, hW, hodd, Bool.false_eq_true, if_false]
    split_ifs
    all_goals first
    | exact (((base.update _ _ _).tweak _).tweak _)
    | exact ((base.update _ _ _).tweak _)
    | exact (base.update _ _ _)
    | exact base

/-- On a wicket, the non-striker is untouched: the dismissed striker is
replaced in the striker slot (or kept, with nobody left), so no
rotation happens. -/
theorem ballApplyOutcome_wicket_nonStriker (mh : Nat → Nat → Bool) (s : MatchState)
    (stp bwp : Player) (o : BallOutcome)
    (hst : s.striker = some stp) (hW : o.isWicket = true) :
    (ballApplyOutcome mh s stp bwp o).nonStriker = s.nonStriker := by
  simp only [ballApplyOutcome, hW, if_true]
  rw [tweakStrikerConf_nonStriker]
  rw [handleWicket_nonStriker]
  simp [hst]

@[simp]
theorem testBallTally_bowler (s : TestMatchState) (o : BallOutcome) :
    (testBallTally s o).bowler = s.bowler := by
  simp only [testBallTally]
  split_ifs <;> rfl

theorem ballFatigue_fitness (s : MatchState) (o : BallOutcome) (m : Nat) (d : Int)
    (hd : 0 ≤ d) (p : Player) (hp : s.bowler = some p)
    (h1 : 50 ≤ p.fitness) (h2 : p.fitness ≤ 100) :
    ∀ q, (ballFatigue s o m d).bowler = some q →
      50 ≤ q.fitness ∧ q.fitness ≤ 100 := by
  intro q hq
  simp only [ballFatigue, hp] at hq
  split_ifs at hq with hcond hball
  · injection hq with hq
    subst hq
    exact ⟨le_max_left _ _, max_le (by norm_num) (by omega)⟩
  · rw [hp] at hq
    injection hq with hq
    subst hq
    exact ⟨h1, h2⟩
  · rw [hp] at hq
    injection hq with hq
    subst hq
    exact ⟨h1, h2⟩

/-- The Test fatigue stage wrapped back into the `TestMatchState`. -/
theorem testBallFatigue_fitness (x : TestMatchState) (o : BallOutcome) (m : Nat)
    (d : Int) (hd : 0 ≤ d) (p : Player) (hp : x.bowler = some p)
    (h1 : 50 ≤ p.fitness) (h2 : p.fitness ≤ 100) :
    ∀ q, ({ x with toMatchState := ballFatigue x.toMatchState o m d } :
        TestMatchState).bowler = some q →
      50 ≤ q.fitness ∧ q.fitness ≤ 100 := by
  intro q hq
  have hq' : (ballFatigue x.toMatchState o m d).bowler = some q := by simpa using hq
  exact ballFatigue_fitness x.toMatchState o m d hd p hp h1 h2 q hq'

/-!  Claim theorems. -/

/-- C2: for every reachable match state (wickets never exceed 10, see
C4), `isInningsComplete()` is true iff all out (wickets = 10) or — in
the limited-overs state only — the legal-ball count has reached
`totalOvers * 6`, or — in the Test state only — the innings was
declared, or — in the fourth Test innings only — the chasing
aggregate has reached the target; no other condition ends an innings. -/
theorem c2_innings_completion_iff (m : MatchState) (hm : m.wickets ≤ 10)
    (s : TestMatchState) (hs : s.wickets ≤ 10) :
    (m.isInningsComplete = true ↔ m.wickets = 10 ∨ m.totalOvers * 6 ≤ m.balls) ∧
    (s.isInningsComplete = true ↔
      s.wickets = 10 ∨ s.declared = true ∨
        (s.inningsNumber = 4 ∧ s.fourthInningsTarget ≤ s.fourthInningsTotal)) := by
  constructor
  · simp only [MatchState.isInningsComplete, Bool.or_eq_true, decide_eq_true_eq]
    omega
  · simp only [TestMatchState.isInningsComplete]
    split_ifs with h1 h2 h3
    · simp only [true_iff]
      exact Or.inl (by omega)
    · simp [h2]
    · simp [h3]
    · constructor
      · intro h
        exact absurd h (by simp)
      · rintro (h | h | h)
        · omega
        · exact absurd h h2
        · exact absurd h h3

/-- C2 witness: a fresh limited-overs state and a fresh Test state. -/
theorem c2_innings_completion_iff_witness :
    (stateW.isInningsComplete = true ↔
      stateW.wickets = 10 ∨ stateW.totalOvers * 6 ≤ stateW.balls) ∧
    (testStateW.isInningsComplete = true ↔
      testStateW.wickets = 10 ∨ testStateW.declared = true ∨
        (testStateW.inningsNumber = 4 ∧
          testStateW.fourthInningsTarget ≤ testStateW.fourthInningsTotal)) :=
  c2_innings_completion_iff stateW (by decide) testStateW (by decide)

/-- C3: in the fourth Test innings (slots one to three populated,
nothing declared, fewer than ten wickets down, inside the five days),
`isInningsComplete()` and `isMatchComplete()` are both true exactly
when the chasing aggregate `second + score` has reached the target
`first + third + 1`, and both false while it is short of the target —
so on the ball on which the aggregate first reaches the target both
flip to true, and on every earlier ball both are false. -/
theorem c3_fourth_innings_exact_ball (s : TestMatchState) (d1 d2 d3 : InningsData)
    (h1 : s.allInningsFirst = some d1) (h2 : s.allInningsSecond = some d2)
    (h3 : s.allInningsThird = some d3) (h4 : s.inningsNumber = 4)
    (hd : s.declared = false) (hw : s.wickets < 10) (hday : s.day ≤ s.matchDays) :
    (d1.runs + d3.runs + 1 ≤ d2.runs + s.score →
      s.isInningsComplete = true ∧ s.isMatchComplete = true) ∧
    (d2.runs + s.score < d1.runs + d3.runs + 1 →
      s.isInningsComplete = false ∧ s.isMatchComplete = false) := by
  have htar : s.fourthInningsTarget = d1.runs + d3.runs + 1 := by
    simp [TestMatchState.fourthInningsTarget, inningsRunsOf, h1, h3]
  have htot : s.fourthInningsTotal = d2.runs + s.score := by
    simp [TestMatchState.fourthInningsTotal, inningsRunsOf, h2]
  constructor
  · intro hr
    constructor
    · rw [TestMatchState.isInningsComplete]
      rw [if_neg (by omega), if_neg (by simp [hd]),
        if_pos ⟨h4, by rw [htar, htot]; exact hr⟩]
    · rw [TestMatchState.isMatchComplete]
      rw [if_neg (by omega), if_neg (by omega),
        if_pos ⟨h4, by rw [htar, htot]; exact hr⟩]
  · intro hr
    constructor
    · rw [TestMatchState.isInningsComplete]
      rw [if_neg (by omega), if_neg (by simp [hd]), if_neg ?_]
      rintro ⟨-, hc⟩
      rw [htar, htot] at hc
      omega
    · rw [TestMatchState.isMatchComplete]
      rw [if_neg (by omega), if_neg (by omega), if_neg ?_, if_neg (by omega)]
      rintro ⟨-, hc⟩
      rw [htar, htot] at hc
      omega

/-- C3 witness: a chase at 280 + 221 = 501 against target
300 + 200 + 1 = 501 — both completion checks true at the exact
target. -/
theorem c3_fourth_innings_exact_ball_witness :
    chaseReachedW.isInningsComplete = true ∧ chaseReachedW.isMatchComplete = true :=
  (c3_fourth_innings_exact_ball chaseReachedW (inningsW 300) (inningsW 280) (inningsW 200)
    rfl rfl rfl rfl rfl (by decide) (by decide)).1 (by decide)

/-- C7: `checkFollowOn()` is true iff the innings number is 2 and the
first-innings total leads the current second-innings score by at least
200; at a deficit of 199 it is false, at exactly 200 it is true. -/
theorem c7_follow_on_iff :
    (∀ s : TestMatchState, s.checkFollowOn = true ↔
      s.inningsNumber = 2 ∧
        200 ≤ (inningsRunsOf s.allInningsFirst : Int) - (s.score : Int)) ∧
    followOn199W.checkFollowOn = false ∧ followOn200W.checkFollowOn = true := by
  refine ⟨?_, by decide, by decide⟩
  intro s
  rw [TestMatchState.checkFollowOn]
  split_ifs with h
  · constructor
    · intro hFalse
      exact absurd hFalse (by simp)
    · rintro ⟨h2, -⟩
      exact absurd h2 h
  · simp only [decide_eq_true_eq]
    exact and_iff_right_of_imp (fun _ => not_not.mp (by simpa using h)) |>.symm

/-- C9: `simulateBall` and `simulateTestBall` throw exactly when the
striker or the bowler is unset — the embedded step functions return an
error and hand back no state (so nothing is mutated), and with both
participants set they always return a successor state, never an
error. -/
theorem c9_unset_participants_throw (mh : Nat → Nat → Bool)
    (s : MatchState) (t : TestMatchState) (o : BallOutcome) :
    ((s.striker = none ∨ s.bowler = none) →
      simulateBall mh s o =
        Except.error ("Striker and bowler must be set before simulating a ball")) ∧
    (∀ a b, s.striker = some a → s.bowler = some b →
      ∃ s', simulateBall mh s o = Except.ok s') ∧
    ((t.striker = none ∨ t.bowler = none) →
      simulateTestBall mh t o =
        Except.error ("Striker and bowler must be set before simulating a ball")) ∧
    (∀ a b, t.striker = some a → t.bowler = some b →
      ∃ t', simulateTestBall mh t o = Except.ok t') := by
  refine ⟨?_, ?_, ?_, ?_⟩
  · rintro (h | h)
    · cases hb : s.bowler <;> simp [simulateBall, h, hb]
    · cases hs : s.striker <;> simp [simulateBall, h, hs]
  · intro a b ha hb
    cases hres : simulateBall mh s o with
    | error e => exact absurd hres (by simp only [simulateBall, ha, hb]; simp)
    | ok s' => exact ⟨s', rfl⟩
  · rintro (h | h)
    · cases hb : t.bowler <;> simp [simulateTestBall, h, hb]
    · cases hs : t.striker <;> simp [simulateTestBall, h, hs]
  · intro a b ha hb
    cases hres : simulateTestBall mh t o with
    | error e => exact absurd hres (by simp only [simulateTestBall, ha, hb]; simp)
    | ok t' => exact ⟨t', rfl⟩

/-- C9 witness: the fresh sample states have striker and bowler set, so
their ball steps succeed; clearing the bowler makes the step throw. -/
theorem c9_unset_participants_throw_witness :
    (∃ s', simulateBall (fun _ _ => false) stateW
        { outcome := ("dot"), runs := 0, isWicket := false, isLegalDelivery := true }
      = Except.ok s') ∧
    simulateBall (fun _ _ => false) { stateW with bowler := none }
        { outcome := ("dot"), runs := 0, isWicket := false, isLegalDelivery := true }
      = Except.error ("Striker and bowler must be set before simulating a ball") := by
  constructor
  · exact (c9_unset_participants_throw (fun _ _ => false) stateW testStateW _).2.1
      (playerW 1) (playerW 11) (by decide) (by decide)
  · exact (c9_unset_participants_throw (fun _ _ => false)
      { stateW with bowler := none } testStateW _).1 (Or.inr rfl)

/-- C8 counterexample: with `inningsNumber = 5` the source
`switchInnings()` is *not* a rejected no-op — it increments
`inningsNumber` to 6 and wipes the per-innings counters (score 37
becomes 0), so the state changes (and the JS returns `undefined`, not
`false`). -/
theorem c8_counterexample :
    pastFourthW.inningsNumber = 5 ∧
    pastFourthW.switchInnings.inningsNumber = 6 ∧
    pastFourthW.score = 37 ∧
    pastFourthW.switchInnings.score = 0 ∧
    pastFourthW.switchInnings ≠ pastFourthW := by
  refine ⟨by decide, by decide, by decide, by decide, ?_⟩
  intro hEq
  exact absurd (congrArg TestMatchState.inningsNumber hEq) (by decide)

/-- C8 amended: calling `switchInnings()` when `inningsNumber` exceeds
4 overwrites no innings slot and swaps no team roles, but it is not
rejected: it still increments `inningsNumber`, resets the per-innings
counters (score, wickets, balls, extras, stat maps) and clears
`declared`; the JS returns `undefined` rather than `false`. -/
theorem c8_switchInnings_past_fourth (s : TestMatchState) (h : 4 < s.inningsNumber) :
    s.switchInnings.allInningsFirst = s.allInningsFirst ∧
    s.switchInnings.allInningsSecond = s.allInningsSecond ∧
    s.switchInnings.allInningsThird = s.allInningsThird ∧
    s.switchInnings.allInningsFourth = s.allInningsFourth ∧
    s.switchInnings.battingTeam = s.battingTeam ∧
    s.switchInnings.bowlingTeam = s.bowlingTeam ∧
    s.switchInnings.inningsNumber = s.inningsNumber + 1 ∧
    s.switchInnings.score = 0 ∧
    s.switchInnings.wickets = 0 ∧
    s.switchInnings.balls = 0 ∧
    s.switchInnings.declared = false := by
  have h1 : ¬ s.inningsNumber = 1 := by omega
  have h2 : ¬ s.inningsNumber = 2 := by omega
  have h3 : ¬ s.inningsNumber = 3 := by omega
  have h4 : ¬ s.inningsNumber = 4 := by omega
  have h5 : ¬ (s.inningsNumber + 1 = 2 ∨ s.inningsNumber + 1 = 4) := by omega
  simp [TestMatchState.switchInnings, h1, h2, h3, h4, h5]

/-- C8 amended witness: the concrete fifth-switch state. -/
theorem c8_switchInnings_past_fourth_witness :
    pastFourthW.switchInnings.allInningsFirst = pastFourthW.allInningsFirst ∧
    pastFourthW.switchInnings.allInningsSecond = pastFourthW.allInningsSecond ∧
    pastFourthW.switchInnings.allInningsThird = pastFourthW.allInningsThird ∧
    pastFourthW.switchInnings.allInningsFourth = pastFourthW.allInningsFourth ∧
    pastFourthW.switchInnings.battingTeam = pastFourthW.battingTeam ∧
    pastFourthW.switchInnings.bowlingTeam = pastFourthW.bowlingTeam ∧
    pastFourthW.switchInnings.inningsNumber = pastFourthW.inningsNumber + 1 ∧
    pastFourthW.switchInnings.score = 0 ∧
    pastFourthW.switchInnings.wickets = 0 ∧
    pastFourthW.switchInnings.balls = 0 ∧
    pastFourthW.switchInnings.declared = false :=
  c8_switchInnings_past_fourth pastFourthW (by decide)

/-- C10: each of the three fitness write sites keeps a bowler's fitness
inside `[50, 100]`: the per-ball drain in `simulateBall` and
`simulateTestBall` runs only while fitness exceeds 50 and clamps at 50
without ever raising fitness, and the overnight recovery in
`recoverBowlerFitness` only raises fitness and caps it at 100.  A
player starting at 100 therefore stays inside `[50, 100]` for the whole
match, every mutation of the shared player object being one of these
sites. -/
theorem c10_fitness_bounds (mh : Nat → Nat → Bool) (o : BallOutcome)
    (s : MatchState) (bw : Player) (hb : s.bowler = some bw)
    (hf1 : 50 ≤ bw.fitness) (hf2 : bw.fitness ≤ 100)
    (t : TestMatchState) (bt : Player) (htb : t.bowler = some bt)
    (hg1 : 50 ≤ bt.fitness) (hg2 : bt.fitness ≤ 100) :
    (∀ s' bw', simulateBall mh s o = Except.ok s' → s'.bowler = some bw' →
      50 ≤ bw'.fitness ∧ bw'.fitness ≤ 100) ∧
    (∀ t' bt', simulateTestBall mh t o = Except.ok t' → t'.bowler = some bt' →
      50 ≤ bt'.fitness ∧ bt'.fitness ≤ 100) ∧
    (∀ f : Int, 50 ≤ f → f ≤ 100 →
      50 ≤ recoverFitness f ∧ recoverFitness f ≤ 100) ∧
    ((∀ p ∈ t.bowlingTeam.players, 50 ≤ p.fitness ∧ p.fitness ≤ 100) →
      ∀ q ∈ t.recoverBowlerFitness.bowlingTeam.players,
        50 ≤ q.fitness ∧ q.fitness ≤ 100) := by
  refine ⟨?_, ?_, ?_, ?_⟩
  · intro s' bw' hres hbw'
    cases hst : s.striker with
    | none => exact absurd hres (by simp [simulateBall, hst])
    | some stv =>
      simp only [simulateBall, hst, hb, Except.ok.injEq] at hres
      subst hres
      have hA : ∃ p, (ballApplyOutcome mh s stv bw o).bowler = some p ∧
          p.fitness = bw.fitness := by
        rcases ballApplyOutcome_bowler mh s stv bw o with h | h
        · exact ⟨_, h, rfl⟩
        · exact ⟨bw, by rw [h, hb], rfl⟩
      obtain ⟨p, hp, hpf⟩ := hA
      have hC : (ballTally (updateBowlerStats (ballApplyOutcome mh s stv bw o) bw.id
          o.runs o.isWicket o.isLegalDelivery) o).bowler = some p := by
        rw [ballTally_bowler, updateBowlerStats_bowler, hp]
      exact ballFatigue_fitness _ o 12 2 (by norm_num) p hC
        (hpf ▸ hf1) (hpf ▸ hf2) bw' hbw'
  · intro t' bt' hres hbt'
    cases hst : t.striker with
    | none => exact absurd hres (by simp [simulateTestBall, hst])
    | some stv =>
      simp only [simulateTestBall, hst, htb, Except.ok.injEq] at hres
      subst hres
      have hA : ∃ p, (ballApplyOutcome mh t.toMatchState stv bt o).bowler = some p ∧
          p.fitness = bt.fitness := by
        rcases ballApplyOutcome_bowler mh t.toMatchState stv bt o with h | h
        · exact ⟨_, h, rfl⟩
        · exact ⟨bt, by rw [h]; exact htb, rfl⟩
      obtain ⟨p, hp, hpf⟩ := hA
      refine testBallFatigue_fitness _ o 18 3 (by norm_num) p ?_
        (hpf ▸ hg1) (hpf ▸ hg2) bt' hbt'
      rw [testBallTally_bowler]
      simpa using hp
  · intro f h1 h2
    unfold recoverFitness
    split_ifs with h
    · exact ⟨le_min (by norm_num) (by omega), min_le_left _ _⟩
    · exact ⟨h1, h2⟩
  · intro hall q hq
    simp only [TestMatchState.recoverBowlerFitness, List.mem_map] at hq
    obtain ⟨p, hpmem, rfl⟩ := hq
    have hp := hall p hpmem
    unfold recoverFitness
    split_ifs with h
    · exact ⟨le_min (by norm_num) (by omega), min_le_left _ _⟩
    · exact ⟨hp.1, hp.2⟩

theorem sum_map_div_mul (l : List (String × Rat)) (t : Rat) :
    (l.map (fun kv => kv.2 / t * 100)).sum = (l.map (fun kv => kv.2)).sum / t * 100 := by
  induction l with
  | nil => simp
  | cons a l ih =>
    simp only [List.map_cons, List.sum_cons, ih]
    ring

/-- C6: on any table of non-negative rates with positive total (exact
rational arithmetic), `normalizeProbabilities` keeps the key list,
returns values summing to exactly 100, and rescales each entry
proportionally (`v * 100 / total`). -/
theorem c6_normalize_sums_to_100 (ps : List (String × Rat))
    (hnn : ∀ kv ∈ ps, 0 ≤ kv.2)
    (hpos : 0 < (ps.map (fun kv => kv.2)).sum) :
    (normalizeProbabilities ps).map (fun kv => kv.1) = ps.map (fun kv => kv.1) ∧
    ((normalizeProbabilities ps).map (fun kv => kv.2)).sum = 100 ∧
    ∀ k v, (k, v) ∈ ps →
      (k, v * 100 / (ps.map (fun kv => kv.2)).sum) ∈ normalizeProbabilities ps := by
  refine ⟨?_, ?_, ?_⟩
  · simp [normalizeProbabilities, List.map_map, Function.comp]
  · simp only [normalizeProbabilities, List.map_map]
    have hcomp :
        ((fun kv : String × Rat => kv.2) ∘
            (fun kv : String × Rat =>
              (kv.1, kv.2 / (ps.map (fun kv => kv.2)).sum * 100)))
          = fun kv : String × Rat => kv.2 / (ps.map (fun kv => kv.2)).sum * 100 := rfl
    rw [hcomp, sum_map_div_mul, div_self (ne_of_gt hpos), one_mul]
  · intro k v hkv
    simp only [normalizeProbabilities]
    refine List.mem_map.mpr ⟨(k, v), hkv, ?_⟩
    rw [div_mul_eq_mul_div]

/-- C6 witness: the base T20 table restricted to two entries. -/
theorem c6_normalize_sums_to_100_witness :
    (normalizeProbabilities [(("dot"), (30 : Rat)), (("four"), (15 : Rat))]).map
        (fun kv => kv.1)
      = [(("dot"), (30 : Rat)), (("four"), (15 : Rat))].map (fun kv => kv.1) ∧
    ((normalizeProbabilities [(("dot"), (30 : Rat)), (("four"), (15 : Rat))]).map
        (fun kv => kv.2)).sum = 100 ∧
    ∀ k v, (k, v) ∈ [(("dot"), (30 : Rat)), (("four"), (15 : Rat))] →
      (k, v * 100 /
          ([(("dot"), (30 : Rat)), (("four"), (15 : Rat))].map (fun kv => kv.2)).sum)
        ∈ normalizeProbabilities [(("dot"), (30 : Rat)), (("four"), (15 : Rat))] :=
  c6_normalize_sums_to_100 _ (by decide) (by norm_num)

/-- C4: a ball adds exactly one wicket on a wicket outcome and none
otherwise; the over loop re-checks `isInningsComplete()` before every
ball, so from any state with at most ten wickets neither `simulateOver`
nor `simulateInnings` (over every outcome stream) can push the wicket
count past 10 — in particular every state reachable from a fresh
innings (0 wickets) keeps `wickets ≤ 10`. -/
theorem c4_wickets_le_ten (mh : Nat → Nat → Bool) (s : MatchState) (o : BallOutcome)
    (outs : List BallOutcome) (streams : List (List BallOutcome))
    (bowlers : List Player) (hw : s.wickets ≤ 10) :
    (∀ s', simulateBall mh s o = Except.ok s' →
      s'.wickets = s.wickets + (if o.isWicket then 1 else 0)) ∧
    (∀ s' b', simulateOver mh s outs = Except.ok (s', b') → s'.wickets ≤ 10) ∧
    (∀ s', simulateInnings mh s streams bowlers = Except.ok s' → s'.wickets ≤ 10) := by
  refine ⟨fun s' h => simulateBall_wickets mh s o s' h,
    fun s' b' h => simulateOver_wickets mh s outs s' b' hw h, ?_⟩
  intro s' h
  simp only [simulateInnings] at h
  exact simulateInningsGo_wickets mh bowlers _ streams _ 0 0 s' (by simpa using hw) h

/-- C4 witness: one simulated over containing a wicket from the fresh
sample state. -/
theorem c4_wickets_le_ten_witness :
    ∃ s', simulateInnings (fun _ _ => false) stateW
        [[{ outcome := ("wicket"), runs := 0, isWicket := true, isLegalDelivery := true }]]
        [playerW 11, playerW 12]
      = Except.ok s' ∧ s'.wickets ≤ 10 := by
  refine ⟨_, rfl, ?_⟩
  exact (c4_wickets_le_ten (fun _ _ => false) stateW
    { outcome := ("wicket"), runs := 0, isWicket := true, isLegalDelivery := true }
    [] [[{ outcome := ("wicket"), runs := 0, isWicket := true, isLegalDelivery := true }]]
    [playerW 11, playerW 12] (by decide)).2.2 _ rfl

/-- C5: in `simulateBall`, the pair at the crease swaps exactly on a
legal non-wicket delivery with odd runs; it keeps its order on even
legal runs and on wides/no-balls, and on a wicket the non-striker is
untouched (the striker slot gets the replacement batsman — no
rotation).  At the end of `simulateOver`, the additional rotation fires
exactly when the over had six legal deliveries and the innings is still
alive. -/
theorem c5_strike_rotation (mh : Nat → Nat → Bool) (s : MatchState) (o : BallOutcome)
    (outs : List BallOutcome) (stv nsv : Player)
    (hst : s.striker = some stv) (hns : s.nonStriker = some nsv) :
    (∀ s', simulateBall mh s o = Except.ok s' →
      ((o.isWicket = false ∧ o.isLegalDelivery = true ∧ o.runs % 2 = 1) →
        ∃ a b, s'.striker = some a ∧ s'.nonStriker = some b ∧
          a.id = nsv.id ∧ b.id = stv.id) ∧
      ((o.isWicket = false ∧ (o.isLegalDelivery = false ∨ o.runs % 2 = 0)) →
        ∃ a b, s'.striker = some a ∧ s'.nonStriker = some b ∧
          a.id = stv.id ∧ b.id = nsv.id) ∧
      (o.isWicket = true → s'.nonStriker = some nsv)) ∧
    (∀ s1 b1, simulateOverGo mh s outs 0 = Except.ok (s1, b1) →
      simulateOver mh s outs = Except.ok
        ((if b1 = 6 ∧ s1.isInningsComplete = false then rotateStrike s1 else s1), b1)) := by
  constructor
  · intro s' h
    cases hbw : s.bowler with
    | none => exact absurd h (by simp [simulateBall, hst, hbw])
    | some bwv =>
      simp only [simulateBall, hst, hbw, Except.ok.injEq] at h
      subst h
      refine ⟨?_, ?_, ?_⟩
      · rintro ⟨hW, hL, hodd⟩
        obtain ⟨a, b, ha, hb, hai, hbi⟩ :=
          ballApplyOutcome_odd_rotates mh s stv bwv stv nsv o hst hns hW hL hodd
        exact ⟨a, b, by simp [ha], by simp [hb], hai, hbi⟩
      · rintro ⟨hW, hE⟩
        obtain ⟨a, b, ha, hb, hai, hbi⟩ :=
          ballApplyOutcome_keeps_order mh s stv bwv stv nsv o hst hns hW hE
        exact ⟨a, b, by simp [ha], by simp [hb], hai, hbi⟩
      · intro hW
        rw [ballFatigue_nonStriker, ballTally_nonStriker, updateBowlerStats_nonStriker,
          ballApplyOutcome_wicket_nonStriker mh s stv bwv o hst hW, hns]
  · intro s1 b1 hgo
    simp only [simulateOver, hgo]

/-- C5 witness: a single off the first ball of the sample state swaps
the openers' identities. -/
theorem c5_strike_rotation_witness :
    ∃ s', simulateBall (fun _ _ => false) stateW
        { outcome := ("single"), runs := 1, isWicket := false, isLegalDelivery := true }
      = Except.ok s' ∧
      ∃ a b, s'.striker = some a ∧ s'.nonStriker = some b ∧
        a.id = (playerW 2).id ∧ b.id = (playerW 1).id := by
  refine ⟨_, rfl, ?_⟩
  exact ((c5_strike_rotation (fun _ _ => false) stateW
    { outcome := ("single"), runs := 1, isWicket := false, isLegalDelivery := true }
    [] (playerW 1) (playerW 2) (by decide) (by decide)).1 _ rfl).1
    ⟨rfl, rfl, by decide⟩

/-- C10 witness: one legal delivery from the fresh sample states and an
overnight recovery, all from fitness 100. -/
theorem c10_fitness_bounds_witness :
    (∃ s', simulateBall (fun _ _ => false) stateW
        { outcome := ("single"), runs := 1, isWicket := false, isLegalDelivery := true }
      = Except.ok s' ∧
      ∀ bw', s'.bowler = some bw' → 50 ≤ bw'.fitness ∧ bw'.fitness ≤ 100) ∧
    (∀ q ∈ testStateW.recoverBowlerFitness.bowlingTeam.players,
      50 ≤ q.fitness ∧ q.fitness ≤ 100) := by
  have h := c10_fitness_bounds (fun _ _ => false)
    { outcome := ("single"), runs := 1, isWicket := false, isLegalDelivery := true }
    stateW (playerW 11) (by decide) (by decide) (by decide)
    testStateW (playerW 11) (by decide) (by decide) (by decide)
  refine ⟨⟨_, rfl, fun bw' hbw' => h.1 _ bw' rfl hbw'⟩, ?_⟩
  exact h.2.2.2 (by decide)

/-!  C1 — supporting lemmas for the part_013 bowling manager. -/

theorem mem_insertByBool {lt : α → α → Bool} {x y : α} {l : List α}
    (h : y ∈ insertByBool lt x l) : y = x ∨ y ∈ l := by
  induction l with
  | nil => simpa [insertByBool] using h
  | cons a l ih =>
    simp only [insertByBool] at h
    split_ifs at h
    · simpa using h
    · rcases List.mem_cons.mp h with h | h
      · exact Or.inr (by simp [h])
      · rcases ih h with h | h
        · exact Or.inl h
        · exact Or.inr (List.mem_cons_of_mem _ h)

theorem mem_sortByBool {lt : α → α → Bool} {y : α} {l : List α}
    (h : y ∈ sortByBool lt l) : y ∈ l := by
  suffices H : ∀ (l acc : List α),
      y ∈ l.foldl (fun acc x => insertByBool lt x acc) acc → y ∈ acc ∨ y ∈ l by
    rcases H l [] h with h' | h'
    · simp at h'
    · exact h'
  intro l
  induction l with
  | nil =>
    intro acc h'
    exact Or.inl (by simpa using h')
  | cons a l ih =>
    intro acc h'
    simp only [List.foldl_cons] at h'
    rcases ih _ h' with h'' | h''
    · rcases mem_insertByBool h'' with h3 | h3
      · exact Or.inr (by simp [h3])
      · exact Or.inl h3
    · exact Or.inr (List.mem_cons_of_mem _ h'')

theorem get?_zero_mem {l : List α} {x : α} (h : l.get? 0 = some x) : x ∈ l := by
  cases l with
  | nil => simp at h
  | cons a l =>
    simp only [List.get?] at h
    injection h with h
    simp [h]

theorem notPrev_true_iff (prev b : Bowler) :
    notPrev (some prev) b = true ↔ b.id ≠ prev.id := by
  simp [notPrev, bne_iff_ne]

theorem findAnyAvailableBowler_ne (m : BowlingManager) (cur : Nat) (prev : Bowler)
    (hall : ∃ b ∈ m.allBowlers, b.id ≠ prev.id) :
    ∀ r, m.findAnyAvailableBowler cur (some prev) = some r → r.id ≠ prev.id := by
  intro r hr
  unfold BowlingManager.findAnyAvailableBowler at hr
  cases h1 : m.allBowlers.find?
      (fun b => notPrev (some prev) b && m.canBowlAgain b cur) with
  | some b =>
    rw [h1] at hr
    injection hr with hr
    subst hr
    have hb := List.find?_some h1
    simp only [Bool.and_eq_true] at hb
    exact (notPrev_true_iff prev b).mp hb.1
  | none =>
    rw [h1] at hr
    cases h2 : m.allBowlers.find? (fun b => notPrev (some prev) b) with
    | some b =>
      rw [h2] at hr
      injection hr with hr
      subst hr
      exact (notPrev_true_iff prev b).mp (List.find?_some h2)
    | none =>
      exfalso
      obtain ⟨b, hbmem, hbne⟩ := hall
      have := List.find?_eq_none.mp h2 b hbmem
      exact this ((notPrev_true_iff prev b).mpr hbne)

theorem mem_priority_part {l : List Bowler} {pred : Bowler → Bool} {k : Nat}
    {bp : Bowler × Nat} (hm : bp ∈ (l.filter pred).map (fun b => (b, k))) :
    pred bp.1 = true := by
  obtain ⟨b, hbF, rfl⟩ := List.mem_map.mp hm
  exact (List.mem_filter.mp hbF).2

theorem middleOversCandidates_notPrev (m : BowlingManager) (cur : Nat)
    (pb : Option Bowler) (bp : Bowler × Nat)
    (hm : bp ∈ m.middleOversCandidates cur pb) : notPrev pb bp.1 = true := by
  simp only [BowlingManager.middleOversCandidates] at hm
  have step : ∀ {l : List Bowler} {k : Nat},
      bp ∈ (l.filter (fun b => m.canBowlAgain b cur && notPrev pb b)).map
        (fun b => (b, k)) → notPrev pb bp.1 = true := by
    intro l k h
    have hp := mem_priority_part h
    simp only [Bool.and_eq_true] at hp
    exact hp.2
  rcases List.mem_append.mp hm with h | h
  · rcases List.mem_append.mp h with h2 | h2
    · split_ifs at h2 with hc
      · exact step h2
      · simp at h2
    · exact step h2
  · exact step h

/-- The pool of the C1 counterexample: one pace bowler and four
spinners, so `categorizeBowlers` makes the pace bowler the only
opener. -/
def bowlerPaceW : Bowler := { id := 1, style := ("fast"), rating := 90, fitness := some 100 }

/-- A spin bowler of the counterexample pool. -/
def bowlerSpinW (i : Nat) (r : Int) : Bowler :=
  { id := i, style := ("spin"), rating := r, fitness := some 100 }

/-- The constructed manager over the five-bowler pool. -/
def bmOnePaceW : BowlingManager :=
  mkBowlingManager
    [bowlerPaceW, bowlerSpinW 2 85, bowlerSpinW 3 80, bowlerSpinW 4 75, bowlerSpinW 5 70]

/-- C1 counterexample: over 1 of the intended protocol (the pace bowler
has just bowled over 0 and is passed as `previousBowler`), with five
eligible bowlers in the pool.  `selectNextBowler` takes the
opening-spell fallback (`return this.openingBowlers[0]`) and hands the
over straight back to `previousBowler` — the returned bowler is *not*
distinct from `previousBowler`, and the same bowler bowls two
consecutive overs. -/
theorem c1_counterexample :
    bmOnePaceW.selectNextBowler 1 (some bowlerPaceW) = some bowlerPaceW := by decide

/-- C1 amended: `selectNextBowler` (part_013 variant) returns a bowler
distinct from a non-null `previousBowler` provided the pool contains
some bowler with a different id and — during the opening spell
(`currentOver < 10`) — the opening pool itself contains a bowler with
a different id.  Without the latter, the opening-spell fallback returns
`openingBowlers[0]` even when that is `previousBowler` (see the
counterexample), so the no-consecutive-overs guarantee needs at least
two openers. -/
theorem c1_select_distinct_amended (m : BowlingManager) (currentOver : Nat)
    (prev : Bowler) (hall : ∃ b ∈ m.allBowlers, b.id ≠ prev.id)
    (hopen : currentOver < 10 → ∃ b ∈ m.openingBowlers, b.id ≠ prev.id) :
    ∀ r, m.selectNextBowler currentOver (some prev) = some r → r.id ≠ prev.id := by
  intro r hr
  unfold BowlingManager.selectNextBowler at hr
  split_ifs at hr with h10 h25
  · -- opening spell
    obtain ⟨b, hbmem, hbne⟩ := hopen h10
    unfold BowlingManager.selectOpeningBowler at hr
    have hne : ¬ (m.openingBowlers.isEmpty = true) := by
      cases hOB : m.openingBowlers with
      | nil => rw [hOB] at hbmem; simp at hbmem
      | cons x xs => simp [hOB]
    rw [if_neg hne] at hr
    cases hg : (m.openingBowlers.filter (fun b => b.id != prev.id)).get? 0 with
    | some b2 =>
      simp only [hg] at hr
      injection hr with hr
      subst hr
      have hmem := get?_zero_mem hg
      exact bne_iff_ne.mp (List.mem_filter.mp hmem).2
    | none =>
      exfalso
      have hmem : b ∈ m.openingBowlers.filter (fun x => x.id != prev.id) :=
        List.mem_filter.mpr ⟨hbmem, bne_iff_ne.mpr hbne⟩
      rw [List.get?_eq_none] at hg
      have h0 : 0 < (m.openingBowlers.filter (fun x => x.id != prev.id)).length :=
        List.length_pos.mpr (List.ne_nil_of_mem hmem)
      omega
  · -- first-change period
    simp only [BowlingManager.selectFirstChangeBowler] at hr
    split_ifs at hr with hFC
    · have hmem := mem_sortByBool (get?_zero_mem hr)
      have hp := (List.mem_filter.mp hmem).2
      simp only [Bool.and_eq_true] at hp
      exact (notPrev_true_iff prev r).mp hp.2
    · cases hg : (m.openingBowlers.filter
          (fun b => m.canBowlAgain b currentOver && notPrev (some prev) b)).get? 0 with
      | some b2 =>
        simp only [hg] at hr
        injection hr with hr
        subst hr
        have hmem := get?_zero_mem hg
        have hp := (List.mem_filter.mp hmem).2
        simp only [Bool.and_eq_true] at hp
        exact (notPrev_true_iff prev b2).mp hp.2
      | none =>
        simp only [hg] at hr
        exact findAnyAvailableBowler_ne m currentOver prev hall r hr
  · -- middle overs
    simp only [BowlingManager.selectMiddleOversBowler] at hr
    split_ifs at hr with hAB
    · exact findAnyAvailableBowler_ne m currentOver prev hall r hr
    · obtain ⟨bp, hbp, hbp1⟩ := Option.map_eq_some'.mp hr
      have hmem := mem_sortByBool (get?_zero_mem hbp)
      have hnp := middleOversCandidates_notPrev m currentOver (some prev) bp hmem
      rw [← hbp1]
      exact (notPrev_true_iff prev bp.1).mp hnp

/-- The second pace bowler of the amended-claim witness pool. -/
def bowlerPace2W : Bowler := { id := 6, style := ("fast"), rating := 88, fitness := some 100 }

/-- A manager over a pool with two opening bowlers. -/
def bmTwoPaceW : BowlingManager :=
  mkBowlingManager
    [bowlerPaceW, bowlerPace2W, bowlerSpinW 2 85, bowlerSpinW 3 80, bowlerSpinW 4 75]

/-- C1 amended witness: with two opening bowlers, the over after one of
them bowls goes to a different bowler. -/
theorem c1_select_distinct_amended_witness :
    ∃ r, bmTwoPaceW.selectNextBowler 1 (some bowlerPaceW) = some r ∧
      r.id ≠ bowlerPaceW.id := by
  have hsel : bmTwoPaceW.selectNextBowler 1 (some bowlerPaceW) = some bowlerPace2W := by
    decide
  exact ⟨bowlerPace2W, hsel, c1_select_distinct_amended bmTwoPaceW 1 bowlerPaceW
    (by decide) (fun _ => by decide) bowlerPace2W hsel⟩

end Cricket
